import Mathlib

/-!
Shallow embedding of the DjangoOnlineStore cart/catalog logic
(src/store/serializers.py, src/store/views.py).

Python `Decimal` values are modelled as exact rationals (ℚ); Python `int`
as `Int`.  Database tables are modelled as Lean lists of records; the ORM
lookups (`objects.get`, `objects.filter(...).exists()`, `.count()`) become
`List.find?`, `List.any`, `List.countP`.  Fallible request handlers return
the new store state together with a response value.
-/

namespace Store

/-- A row of the `Product` table (store/models.py is not in src/; the field
list follows the data-model table of the spec: id, title, description, slug,
inventory, unit_price, collection reference). -/
structure Product where
  id : Nat
  title : String
  description : String
  slug : String
  inventory : Nat
  unit_price : ℚ
  collection : Nat
  deriving Repr, DecidableEq

/-- A row of the `Collection` table: id and title. -/
structure Collection where
  id : Nat
  title : String
  deriving Repr, DecidableEq

/-- Modelled from the spec: an order line (`OrderItem`) referencing a
product; `models.py` is absent from src/, and views.py only touches order
lines through `product.orderitems.count()`. -/
structure OrderItem where
  id : Nat
  product_id : Nat
  deriving Repr, DecidableEq

/-- A row of the `CartItem` table: id, cart reference (the UUID of the cart,
modelled as an opaque `Nat` token), product reference and quantity. -/
structure CartItem where
  id : Nat
  cart_id : Nat
  product_id : Nat
  quantity : Int
  deriving Repr, DecidableEq

/-- `Product.objects.filter(pk=value)` resolved on a list of products. -/
def productOf (products : List Product) (pid : Nat) : Option Product :=
  products.find? (fun p => p.id == pid)

/-- The unit price of the product the `product` foreign key of a cart item
dereferences to (`item.product.unit_price`); `0` when the key dangles,
which referential integrity rules out. -/
def unit_priceOf (products : List Product) (pid : Nat) : ℚ :=
  ((productOf products pid).map Product.unit_price).getD 0

/-- The exact rational value of the Python float literal `1.1`
(IEEE-754 binary64), which is what `Decimal(1.1)` denotes:
`Decimal(«1.100000000000000088817841970012523233890533447265625»)`. -/
def decimalOfFloat_1_1 : ℚ := 2476979795053773 / 2251799813685248

/-- `ProductSerializer.calculate_tax` (serializers.py line 42):
`product.unit_price * Decimal(1.1)`.  The multiplication is modelled
exactly in ℚ; the Python decimal context additionally rounds the product to
28 significant digits, which never rounds back to `unit_price * 11/10`. -/
def ProductSerializer_calculate_tax (unit_price : ℚ) : ℚ :=
  unit_price * decimalOfFloat_1_1

/-- `CartItemSerializer.get_total_price` (serializers.py line 103):
`cart_item.quantity * cart_item.product.unit_price`. -/
def CartItemSerializer_get_total_price (products : List Product)
    (item : CartItem) : ℚ :=
  (item.quantity : ℚ) * unit_priceOf products item.product_id

/-- `CartSerializer.get_total_price` (serializers.py line 128):
`sum([item.quantity * item.product.unit_price for item in cart.items.all()])`. -/
def CartSerializer_get_total_price (products : List Product)
    (items : List CartItem) : ℚ :=
  (items.map (fun item => (item.quantity : ℚ) * unit_priceOf products item.product_id)).sum

/-- The mutable cart-item table together with the primary-key counter the
database uses to hand out fresh row ids. -/
structure CartState where
  items : List CartItem
  nextId : Nat
  deriving Repr, DecidableEq

/-- The empty cart store. -/
def CartState.init : CartState := ⟨[], 0⟩

/-- The row predicate of `CartItem.objects.get(cart_id=cart_id,
product_id=product_id)` (serializers.py line 172). -/
def matchesPair (cart_id product_id : Nat) (item : CartItem) : Bool :=
  item.cart_id == cart_id && item.product_id == product_id

/-- `AddCartItemSerializer.validate_product_id` (serializers.py lines
140-155): error when `Product.objects.filter(pk=value).exists()` is false. -/
def AddCartItemSerializer_validate_product_id (products : List Product)
    (value : Nat) : Except String Nat :=
  if products.any (fun p => p.id == value) then Except.ok value
  else Except.error "No product with the given ID was found."

/-- `AddCartItemSerializer.save` (serializers.py lines 157-179) on validated
data: fetch the row for `(cart_id, product_id)`; if it exists, increment its
quantity in place (`cart_item.save()` rewrites the row with that primary
key); on `CartItem.DoesNotExist`, insert a fresh row with that quantity. -/
def AddCartItemSerializer_save (st : CartState) (cart_id product_id : Nat)
    (quantity : Int) : CartState × CartItem :=
  match st.items.find? (matchesPair cart_id product_id) with
  | some item =>
      let item' : CartItem := { item with quantity := item.quantity + quantity }
      (⟨st.items.map (fun j => if j.id == item.id then item' else j), st.nextId⟩, item')
  | none =>
      let item' : CartItem := ⟨st.nextId, cart_id, product_id, quantity⟩
      (⟨st.items ++ [item'], st.nextId + 1⟩, item')

/-- The POST handler for `/carts/{cart_pk}/items/`: run
`validate_product_id`, then `save`.  On a validation error the store is
untouched (the exception aborts the request before any write). -/
def add_cart_item (products : List Product) (st : CartState)
    (cart_id product_id : Nat) (quantity : Int) :
    CartState × Except String CartItem :=
  match AddCartItemSerializer_validate_product_id products product_id with
  | Except.error e => (st, Except.error e)
  | Except.ok _ =>
      let r := AddCartItemSerializer_save st cart_id product_id quantity
      (r.1, Except.ok r.2)

/-- The PATCH handler for a cart item (`UpdateCartItemSerializer`,
serializers.py lines 181-190, selected in views.py lines 127-132): it
exposes only the `quantity` field, so the update rewrites exactly that
field of the addressed row.  The rejection of non-positive quantities is
modelled from the spec: «update sets quantity to an exact new value (must
be positive)» — the validator lives on the CartItem model in models.py,
which is absent from src/. -/
def update_cart_item (st : CartState) (item_id : Nat) (quantity : Int) :
    CartState × Except String Unit :=
  if quantity < 1 then
    (st, Except.error "Ensure this value is greater than or equal to 1.")
  else
    (⟨st.items.map (fun j => if j.id == item_id then { j with quantity := quantity } else j),
      st.nextId⟩, Except.ok ())

/-- The DELETE handler for a cart item: remove the addressed row. -/
def remove_cart_item (st : CartState) (item_id : Nat) : CartState :=
  ⟨st.items.filter (fun j => j.id != item_id), st.nextId⟩

/-- Modelled from the spec: deleting a cart «cascade-deletes its items»
(the on_delete cascade lives in models.py, absent from src/). -/
def delete_cart (st : CartState) (cart_id : Nat) : CartState :=
  ⟨st.items.filter (fun j => j.cart_id != cart_id), st.nextId⟩

/-- One sequential cart-item operation, as issued through the HTTP surface. -/
inductive CartOp where
  | add (cart_id product_id : Nat) (quantity : Int)
  | update (item_id : Nat) (quantity : Int)
  | remove (item_id : Nat)
  | deleteCart (cart_id : Nat)
  deriving Repr, DecidableEq

/-- The state transition of one cart-item operation. -/
def CartOp.step (products : List Product) (st : CartState) : CartOp → CartState
  | CartOp.add c p q => (add_cart_item products st c p q).1
  | CartOp.update i q => (update_cart_item st i q).1
  | CartOp.remove i => remove_cart_item st i
  | CartOp.deleteCart c => delete_cart st c

/-- States reachable from the empty store by some sequence of cart-item
operations. -/
def reachable (products : List Product) (st : CartState) : Prop :=
  ∃ ops : List CartOp, st = ops.foldl (CartOp.step products) CartState.init

/-- At most one cart-item row per (cart, product) pair. -/
def uniquePerCartProduct (items : List CartItem) : Prop :=
  items.Pairwise (fun a b => a.cart_id ≠ b.cart_id ∨ a.product_id ≠ b.product_id)

/-- Every row id is below the primary-key counter (so freshly issued ids
never collide with existing rows). -/
def idsBelowNext (st : CartState) : Prop :=
  ∀ item ∈ st.items, item.id < st.nextId

/-- The database well-formedness invariant: at most one row per
(cart, product) pair, pairwise-distinct row ids, and all ids below the
primary-key counter. -/
def CartInv (st : CartState) : Prop :=
  uniquePerCartProduct st.items
    ∧ st.items.Pairwise (fun a b => a.id ≠ b.id)
    ∧ idsBelowNext st

/-- The catalog tables the delete handlers read and write. -/
structure CatalogStore where
  collections : List Collection
  products : List Product
  orderItems : List OrderItem
  deriving Repr, DecidableEq

/-- An HTTP response as the two delete handlers produce it: 404 from
`get_object_or_404`, a JSON body an `error` key mapped to the message with an explicit
status, or an empty 204. -/
inductive HttpResponse where
  | notFound
  | errorBody (msg : String) (status : Nat)
  | noContent
  deriving Repr, DecidableEq

/-- `ProductViewSet.delete` (views.py lines 39-54): 404 when the product is
missing; a 405 error body when `product.orderitems.count() > 0`; otherwise
`product.delete()` then 204. -/
def ProductViewSet_delete (st : CatalogStore) (pk : Nat) :
    CatalogStore × HttpResponse :=
  match st.products.find? (fun p => p.id == pk) with
  | none => (st, HttpResponse.notFound)
  | some _ =>
      if st.orderItems.countP (fun o => o.product_id == pk) > 0 then
        (st, HttpResponse.errorBody
          "Product cannot be deleted because it is associated with an order item." 405)
      else
        ({ st with products := st.products.filter (fun p => p.id != pk) },
         HttpResponse.noContent)

/-- `CollectionViewSet.delete` (views.py lines 69-84): 404 when the
collection is missing; a 405 error body when
`collection.products.count() > 0`; otherwise `collection.delete()` then 204. -/
def CollectionViewSet_delete (st : CatalogStore) (pk : Nat) :
    CatalogStore × HttpResponse :=
  match st.collections.find? (fun c => c.id == pk) with
  | none => (st, HttpResponse.notFound)
  | some _ =>
      if st.products.countP (fun p => p.collection == pk) > 0 then
        (st, HttpResponse.errorBody
          "Collection cannot be deleted because it includes one or more products." 405)
      else
        ({ st with collections := st.collections.filter (fun c => c.id != pk) },
         HttpResponse.noContent)

/-! ### Helper lemmas -/

@[simp]
theorem matchesPair_eq_true {c p : Nat} {it : CartItem} :
    matchesPair c p it = true ↔ it.cart_id = c ∧ it.product_id = p := by
  simp [matchesPair]

theorem save_of_find?_none (st : CartState) (c pid : Nat) (q : Int)
    (h : st.items.find? (matchesPair c pid) = none) :
    AddCartItemSerializer_save st c pid q
      = (⟨st.items ++ [⟨st.nextId, c, pid, q⟩], st.nextId + 1⟩, ⟨st.nextId, c, pid, q⟩) := by
  simp [AddCartItemSerializer_save, h]

theorem save_of_find?_some (st : CartState) (c pid : Nat) (q : Int) (item : CartItem)
    (h : st.items.find? (matchesPair c pid) = some item) :
    AddCartItemSerializer_save st c pid q
      = (⟨st.items.map (fun j =>
            if j.id == item.id then { item with quantity := item.quantity + q } else j),
          st.nextId⟩,
         { item with quantity := item.quantity + q }) := by
  simp [AddCartItemSerializer_save, h]

theorem add_cart_item_of_valid (products : List Product) (st : CartState)
    (c pid : Nat) (q : Int)
    (hany : products.any (fun p => p.id == pid) = true) :
    add_cart_item products st c pid q
      = ((AddCartItemSerializer_save st c pid q).1,
         Except.ok (AddCartItemSerializer_save st c pid q).2) := by
  simp [add_cart_item, AddCartItemSerializer_validate_product_id, hany]

theorem any_id_eq_true_of_exists (products : List Product) (pid : Nat)
    (h : ∃ p ∈ products, p.id = pid) :
    products.any (fun p => p.id == pid) = true := by
  obtain ⟨p, hm, hid⟩ := h
  simp only [List.any_eq_true, beq_iff_eq]
  exact ⟨p, hm, hid⟩

/-! ### Claim theorems: serializer-level arithmetic -/

/-- C3: the serialized cart total (`CartSerializer.get_total_price`) equals
the sum over the items of the cart of the per-item serialized total
(`CartItemSerializer.get_total_price`), i.e. the sum of
quantity × product unit price. -/
theorem cart_total_price_eq_sum_item_total_price
    (products : List Product) (items : List CartItem) :
    CartSerializer_get_total_price products items
      = (items.map (CartItemSerializer_get_total_price products)).sum := rfl

/-- C9: the serialized total of a cart with no items is `0`
(`sum([])` in Python). -/
theorem empty_cart_total_price_zero (products : List Product) :
    CartSerializer_get_total_price products [] = 0 := rfl

/-- C4 (refutation): `ProductSerializer.calculate_tax` does not multiply by
exactly 11/10, because `Decimal(1.1)` converts the binary float `1.1`.  For
unit price 10 the exact tax-inclusive price would be 11, but the code
yields `10 * Decimal(1.1) ≠ 11` (Python prints
`11.00000000000000088817841970` after context rounding). -/
theorem calculate_tax_differs_from_exact_tax :
    ProductSerializer_calculate_tax 10 ≠ (10 : ℚ) * (11 / 10)
      ∧ ProductSerializer_calculate_tax 10
          = 24769797950537730 / 2251799813685248 := by
  constructor
  · intro h
    rw [ProductSerializer_calculate_tax, decimalOfFloat_1_1] at h
    norm_num at h
  · rw [ProductSerializer_calculate_tax, decimalOfFloat_1_1]
    norm_num

/-- C7: adding a cart item whose product id matches no existing product is
rejected with the validation error from `validate_product_id` and leaves
the cart-item table untouched. -/
theorem add_unknown_product_validation_error (products : List Product)
    (st : CartState) (c pid : Nat) (q : Int)
    (h : ∀ p ∈ products, p.id ≠ pid) :
    add_cart_item products st c pid q
      = (st, Except.error "No product with the given ID was found.") := by
  have hany : products.any (fun p => p.id == pid) = false := by
    simp only [List.any_eq_false, beq_iff_eq]
    exact h
  simp [add_cart_item, AddCartItemSerializer_validate_product_id, hany]

/-- Witness for C7 at a concrete input: the store knows only product 1, and
an add for product 5 fails without touching the empty cart store. -/
theorem add_unknown_product_validation_error_witness :
    add_cart_item [⟨1, "a", "d", "s", 3, 5, 1⟩] CartState.init 0 5 2
      = (CartState.init, Except.error "No product with the given ID was found.") :=
  add_unknown_product_validation_error [⟨1, "a", "d", "s", 3, 5, 1⟩]
    CartState.init 0 5 2 (by decide)

/-- C5: deleting a collection that still owns at least one product returns
the 405 error-body response and leaves the whole catalog store (the
collection and all its products included) unchanged. -/
theorem collection_delete_with_products_conflict (st : CatalogStore) (pk : Nat)
    (hc : ∃ c ∈ st.collections, c.id = pk)
    (hp : ∃ p ∈ st.products, p.collection = pk) :
    CollectionViewSet_delete st pk
      = (st, HttpResponse.errorBody
          "Collection cannot be deleted because it includes one or more products." 405) := by
  rcases hE : st.collections.find? (fun x => x.id == pk) with _ | c
  · exfalso
    obtain ⟨c, hcm, hcid⟩ := hc
    exact absurd (by simpa using List.find?_eq_none.mp hE c hcm) (by simp [hcid])
  · have hcount : 0 < st.products.countP (fun p => p.collection == pk) := by
      obtain ⟨p, hpm, hpc⟩ := hp
      exact List.countP_pos_iff.mpr ⟨p, hpm, by simp [hpc]⟩
    simp [CollectionViewSet_delete, hE, hcount]

/-- Witness for C5: collection 1 owns product 1, so the delete is refused
and the store is unchanged. -/
theorem collection_delete_with_products_conflict_witness :
    CollectionViewSet_delete ⟨[⟨1, "c"⟩], [⟨1, "a", "d", "s", 3, 5, 1⟩], []⟩ 1
      = (⟨[⟨1, "c"⟩], [⟨1, "a", "d", "s", 3, 5, 1⟩], []⟩,
         HttpResponse.errorBody
          "Collection cannot be deleted because it includes one or more products." 405) :=
  collection_delete_with_products_conflict
    ⟨[⟨1, "c"⟩], [⟨1, "a", "d", "s", 3, 5, 1⟩], []⟩ 1
    ⟨⟨1, "c"⟩, by simp, rfl⟩ ⟨⟨1, "a", "d", "s", 3, 5, 1⟩, by simp, rfl⟩

/-- C6: deleting a product that some order line references returns the 405
error-body response with the store unchanged; deleting a product with no
order lines removes exactly that product (collections and order lines
untouched) and returns 204. -/
theorem product_delete_guard_and_success (st : CatalogStore) (pk : Nat)
    (hp : ∃ p ∈ st.products, p.id = pk) :
    ((∃ o ∈ st.orderItems, o.product_id = pk) →
        ProductViewSet_delete st pk
          = (st, HttpResponse.errorBody
              "Product cannot be deleted because it is associated with an order item." 405))
    ∧ ((∀ o ∈ st.orderItems, o.product_id ≠ pk) →
        (ProductViewSet_delete st pk).2 = HttpResponse.noContent
        ∧ (∀ q ∈ (ProductViewSet_delete st pk).1.products, q.id ≠ pk)
        ∧ (∀ q ∈ st.products, q.id ≠ pk → q ∈ (ProductViewSet_delete st pk).1.products)
        ∧ (ProductViewSet_delete st pk).1.collections = st.collections
        ∧ (ProductViewSet_delete st pk).1.orderItems = st.orderItems) := by
  rcases hE : st.products.find? (fun x => x.id == pk) with _ | p₀
  · exfalso
    obtain ⟨p, hpm, hpid⟩ := hp
    exact absurd (by simpa using List.find?_eq_none.mp hE p hpm) (by simp [hpid])
  · constructor
    · intro ho
      have hcount : 0 < st.orderItems.countP (fun o => o.product_id == pk) := by
        obtain ⟨o, hom, hop⟩ := ho
        exact List.countP_pos_iff.mpr ⟨o, hom, by simp [hop]⟩
      simp [ProductViewSet_delete, hE, hcount]
    · intro ho
      have hcount : st.orderItems.countP (fun o => o.product_id == pk) = 0 := by
        rw [List.countP_eq_zero]
        intro o hom
        simpa using ho o hom
      refine ⟨?_, ?_, ?_, ?_, ?_⟩ <;>
        simp +contextual [ProductViewSet_delete, hE, hcount, List.mem_filter]

/-- Witness for C6: with order line 1 referencing product 1, the first
branch refuses the delete and the store is unchanged. -/
theorem product_delete_guard_and_success_witness :
    ProductViewSet_delete ⟨[⟨1, "c"⟩], [⟨1, "a", "d", "s", 3, 5, 1⟩], [⟨1, 1⟩]⟩ 1
      = (⟨[⟨1, "c"⟩], [⟨1, "a", "d", "s", 3, 5, 1⟩], [⟨1, 1⟩]⟩,
         HttpResponse.errorBody
          "Product cannot be deleted because it is associated with an order item." 405) :=
  (product_delete_guard_and_success
      ⟨[⟨1, "c"⟩], [⟨1, "a", "d", "s", 3, 5, 1⟩], [⟨1, 1⟩]⟩ 1
      ⟨⟨1, "a", "d", "s", 3, 5, 1⟩, by simp, rfl⟩).1
    ⟨⟨1, 1⟩, by simp, rfl⟩

/-- C1: starting from a store whose row ids are below the primary-key
counter and that holds no row for `(c, pid)`, adding quantity `q1` and then
quantity `q2` of product `pid` to cart `c` leaves exactly one row for that
pair, with quantity `q1 + q2`. -/
theorem add_twice_same_product_single_row
    (products : List Product) (st : CartState) (c pid : Nat) (q1 q2 : Int)
    (hfresh : idsBelowNext st)
    (hno : ∀ it ∈ st.items, ¬(it.cart_id = c ∧ it.product_id = pid))
    (hprod : ∃ p ∈ products, p.id = pid) :
    ((add_cart_item products (add_cart_item products st c pid q1).1 c pid q2).1.items.filter
        (matchesPair c pid))
      = [⟨st.nextId, c, pid, q1 + q2⟩] := by
  have hany := any_id_eq_true_of_exists products pid hprod
  have hfind1 : st.items.find? (matchesPair c pid) = none := by
    rw [List.find?_eq_none]
    intro x hx
    simpa using hno x hx
  rw [add_cart_item_of_valid products st c pid q1 hany,
    save_of_find?_none st c pid q1 hfind1]
  rw [add_cart_item_of_valid products _ c pid q2 hany]
  have hfind2 :
      (st.items ++ [(⟨st.nextId, c, pid, q1⟩ : CartItem)]).find? (matchesPair c pid)
        = some ⟨st.nextId, c, pid, q1⟩ := by
    rw [List.find?_append, hfind1]
    simp
  rw [save_of_find?_some _ c pid q2 _ hfind2]
  have hmap :
      (st.items ++ [(⟨st.nextId, c, pid, q1⟩ : CartItem)]).map
          (fun j => if j.id == st.nextId
            then ({ id := st.nextId, cart_id := c, product_id := pid,
                    quantity := q1 + q2 } : CartItem) else j)
        = st.items ++ [⟨st.nextId, c, pid, q1 + q2⟩] := by
    rw [List.map_append]
    congr 1
    · rw [List.map_congr_left (g := id) ?_, List.map_id]
      intro a ha
      have : a.id ≠ st.nextId := Nat.ne_of_lt (hfresh a ha)
      simp [this]
    · simp
  simp only [hmap]
  rw [List.filter_append, List.filter_eq_nil_iff.mpr ?_]
  · simp [matchesPair]
  · intro a ha
    simpa using hno a ha

/-- Witness for C1: two adds of product 1 to cart 7 (quantities 2 and 3)
starting from the empty store leave the single row
`(id 0, cart 7, product 1, quantity 5)`. -/
theorem add_twice_same_product_single_row_witness :
    ((add_cart_item [⟨1, "a", "d", "s", 3, 5, 1⟩]
        (add_cart_item [⟨1, "a", "d", "s", 3, 5, 1⟩] CartState.init 7 1 2).1
        7 1 3).1.items.filter (matchesPair 7 1))
      = [⟨0, 7, 1, 2 + 3⟩] :=
  add_twice_same_product_single_row [⟨1, "a", "d", "s", 3, 5, 1⟩]
    CartState.init 7 1 2 3
    (by intro it h; simp [CartState.init] at h)
    (by intro it h; simp [CartState.init] at h)
    ⟨⟨1, "a", "d", "s", 3, 5, 1⟩, by simp, rfl⟩

/-- Distinct row ids is a symmetric relation (helper for frame lemmas). -/
theorem symm_ne_id :
    Symmetric (fun a b : CartItem => a.id ≠ b.id) :=
  fun _ _ h => h.symm

/-- C10: when a row for `(c, pid)` already exists (and row ids are
pairwise distinct), the add operation allocates no id, keeps the table the
same size, rewrites that row to the same id/cart/product with quantity
incremented by `q`, and leaves every other row in place. -/
theorem add_existing_pair_frame
    (products : List Product) (st : CartState) (c pid : Nat) (q : Int)
    (it0 : CartItem)
    (huniq : st.items.Pairwise (fun a b => a.id ≠ b.id))
    (hfound : st.items.find? (matchesPair c pid) = some it0)
    (hprod : ∃ p ∈ products, p.id = pid) :
    (add_cart_item products st c pid q).1.nextId = st.nextId
    ∧ (add_cart_item products st c pid q).1.items.length = st.items.length
    ∧ ({ it0 with quantity := it0.quantity + q } ∈ (add_cart_item products st c pid q).1.items)
    ∧ (∀ j ∈ st.items, j ≠ it0 → j ∈ (add_cart_item products st c pid q).1.items) := by
  have hany := any_id_eq_true_of_exists products pid hprod
  rw [add_cart_item_of_valid products st c pid q hany,
    save_of_find?_some st c pid q it0 hfound]
  have hmem0 : it0 ∈ st.items := List.mem_of_find?_eq_some hfound
  refine ⟨rfl, List.length_map _ _, ?_, ?_⟩
  · simp only [List.mem_map]
    exact ⟨it0, hmem0, by simp⟩
  · intro j hj hne
    have hid : j.id ≠ it0.id := huniq.forall symm_ne_id hj hmem0 hne
    simp only [List.mem_map]
    exact ⟨j, hj, by simp [hid]⟩

/-- Witness for C10: adding 3 more of product 1 to cart 7, whose single
row is `(id 0, cart 7, product 1, quantity 2)`, keeps the counter and the
row count and rewrites the row to quantity 5. -/
theorem add_existing_pair_frame_witness :
    (add_cart_item [⟨1, "a", "d", "s", 3, 5, 1⟩] ⟨[⟨0, 7, 1, 2⟩], 1⟩ 7 1 3).1.nextId = 1
    ∧ (add_cart_item [⟨1, "a", "d", "s", 3, 5, 1⟩] ⟨[⟨0, 7, 1, 2⟩], 1⟩ 7 1 3).1.items.length = 1
    ∧ ((⟨0, 7, 1, 2 + 3⟩ : CartItem)
        ∈ (add_cart_item [⟨1, "a", "d", "s", 3, 5, 1⟩] ⟨[⟨0, 7, 1, 2⟩], 1⟩ 7 1 3).1.items) :=
  have h := add_existing_pair_frame [⟨1, "a", "d", "s", 3, 5, 1⟩]
    ⟨[⟨0, 7, 1, 2⟩], 1⟩ 7 1 3 ⟨0, 7, 1, 2⟩
    (by simp) rfl ⟨⟨1, "a", "d", "s", 3, 5, 1⟩, by simp, rfl⟩
  ⟨h.1, h.2.1, h.2.2.1⟩

/-! ### The cart-store invariant is preserved by every operation -/

theorem cartInv_init : CartInv CartState.init :=
  ⟨List.Pairwise.nil, List.Pairwise.nil, by intro it h; simp [CartState.init] at h⟩

theorem cartInv_save (st : CartState) (c pid : Nat) (q : Int) (h : CartInv st) :
    CartInv (AddCartItemSerializer_save st c pid q).1 := by
  obtain ⟨h1, h2, h3⟩ := h
  rcases hE : st.items.find? (matchesPair c pid) with _ | item
  · rw [save_of_find?_none st c pid q hE]
    have hnomatch : ∀ a ∈ st.items, ¬(a.cart_id = c ∧ a.product_id = pid) := by
      intro a ha
      simpa using List.find?_eq_none.mp hE a ha
    refine ⟨?_, ?_, ?_⟩
    · rw [uniquePerCartProduct, List.pairwise_append]
      refine ⟨h1, by simp, ?_⟩
      intro a ha b hb
      simp only [List.mem_singleton] at hb
      subst hb
      have := hnomatch a ha
      simp only []
      tauto
    · rw [List.pairwise_append]
      refine ⟨h2, by simp, ?_⟩
      intro a ha b hb
      simp only [List.mem_singleton] at hb
      subst hb
      exact Nat.ne_of_lt (h3 a ha)
    · intro it hit
      simp only [List.mem_append, List.mem_singleton] at hit
      rcases hit with hit | hit
      · exact Nat.lt_succ_of_lt (h3 it hit)
      · subst hit
        exact Nat.lt_succ_self _
  · rw [save_of_find?_some st c pid q item hE]
    have hmem := List.mem_of_find?_eq_some hE
    set f : CartItem → CartItem := fun j =>
      if j.id == item.id then { item with quantity := item.quantity + q } else j with hf
    have hfix : ∀ j ∈ st.items,
        (f j).id = j.id ∧ (f j).cart_id = j.cart_id ∧ (f j).product_id = j.product_id := by
      intro j hj
      by_cases hc : j.id = item.id
      · have hj_eq : j = item := by
          by_contra hne
          exact (h2.forall symm_ne_id hj hmem hne) hc
        subst hj_eq
        simp [hf]
      · simp [hf, hc]
    refine ⟨?_, ?_, ?_⟩
    · rw [uniquePerCartProduct, List.pairwise_map]
      refine h1.imp_of_mem ?_
      intro a b ha hb hab
      obtain ⟨_, hac, hap⟩ := hfix a ha
      obtain ⟨_, hbc, hbp⟩ := hfix b hb
      rw [hac, hap, hbc, hbp]
      exact hab
    · rw [List.pairwise_map]
      refine h2.imp_of_mem ?_
      intro a b ha hb hab
      obtain ⟨haid, _, _⟩ := hfix a ha
      obtain ⟨hbid, _, _⟩ := hfix b hb
      rw [haid, hbid]
      exact hab
    · intro it hit
      simp only [List.mem_map] at hit
      obtain ⟨j, hj, rfl⟩ := hit
      rw [(hfix j hj).1]
      exact h3 j hj

theorem cartInv_add (products : List Product) (st : CartState)
    (c pid : Nat) (q : Int) (h : CartInv st) :
    CartInv (add_cart_item products st c pid q).1 := by
  rcases hv : AddCartItemSerializer_validate_product_id products pid with e | v
  · simpa [add_cart_item, hv] using h
  · simpa [add_cart_item, hv] using cartInv_save st c pid q h

theorem cartInv_update (st : CartState) (iid : Nat) (q : Int) (h : CartInv st) :
    CartInv (update_cart_item st iid q).1 := by
  obtain ⟨h1, h2, h3⟩ := h
  by_cases hq : q < 1
  · simpa [update_cart_item, hq] using ⟨h1, h2, h3⟩
  · simp only [update_cart_item, if_neg hq]
    set f : CartItem → CartItem := fun j =>
      if j.id == iid then { j with quantity := q } else j with hf
    have hfix : ∀ j : CartItem,
        (f j).id = j.id ∧ (f j).cart_id = j.cart_id ∧ (f j).product_id = j.product_id := by
      intro j
      by_cases hc : j.id = iid
      · simp [hf, hc]
      · simp [hf, hc]
    refine ⟨?_, ?_, ?_⟩
    · rw [uniquePerCartProduct, List.pairwise_map]
      refine h1.imp ?_
      intro a b hab
      rw [(hfix a).2.1, (hfix a).2.2, (hfix b).2.1, (hfix b).2.2]
      exact hab
    · rw [List.pairwise_map]
      refine h2.imp ?_
      intro a b hab
      rw [(hfix a).1, (hfix b).1]
      exact hab
    · intro it hit
      simp only [List.mem_map] at hit
      obtain ⟨j, hj, rfl⟩ := hit
      rw [(hfix j).1]
      exact h3 j hj

theorem cartInv_remove (st : CartState) (iid : Nat) (h : CartInv st) :
    CartInv (remove_cart_item st iid) := by
  obtain ⟨h1, h2, h3⟩ := h
  refine ⟨h1.filter _, h2.filter _, ?_⟩
  intro it hit
  exact h3 it (List.mem_of_mem_filter hit)

theorem cartInv_deleteCart (st : CartState) (c : Nat) (h : CartInv st) :
    CartInv (delete_cart st c) := by
  obtain ⟨h1, h2, h3⟩ := h
  refine ⟨h1.filter _, h2.filter _, ?_⟩
  intro it hit
  exact h3 it (List.mem_of_mem_filter hit)

theorem cartInv_step (products : List Product) (st : CartState) (op : CartOp)
    (h : CartInv st) : CartInv (CartOp.step products st op) := by
  cases op with
  | add c p q => exact cartInv_add products st c p q h
  | update i q => exact cartInv_update st i q h
  | remove i => exact cartInv_remove st i h
  | deleteCart c => exact cartInv_deleteCart st c h

theorem cartInv_foldl (products : List Product) (ops : List CartOp) :
    ∀ st : CartState, CartInv st → CartInv (ops.foldl (CartOp.step products) st) := by
  induction ops with
  | nil => intro st h; simpa using h
  | cons op ops ih =>
      intro st h
      simpa using ih (CartOp.step products st op) (cartInv_step products st op h)

/-- C2: in every state reachable from the empty store by sequential
add/update/remove/cart-delete operations, there is at most one cart-item
row per (cart, product) pair. -/
theorem reachable_uniquePerCartProduct (products : List Product) (st : CartState)
    (h : reachable products st) : uniquePerCartProduct st.items := by
  obtain ⟨ops, rfl⟩ := h
  exact (cartInv_foldl products ops CartState.init cartInv_init).1

/-- Witness for C2 on a concrete run: two adds for the same pair, an
update, an add in another cart, and a cart deletion. -/
theorem reachable_uniquePerCartProduct_witness :
    uniquePerCartProduct
      (([CartOp.add 7 1 2, CartOp.add 7 1 3, CartOp.update 0 5,
          CartOp.add 8 1 1, CartOp.deleteCart 8]).foldl
        (CartOp.step [⟨1, "a", "d", "s", 3, 5, 1⟩]) CartState.init).items :=
  reachable_uniquePerCartProduct [⟨1, "a", "d", "s", 3, 5, 1⟩] _ ⟨_, rfl⟩

/-- C8: on a store with pairwise-distinct row ids, updating the row `it0`
with a non-positive quantity is rejected with the validation error and the
store is unchanged, while updating with a positive quantity `q` succeeds,
rewrites exactly that row to quantity `q` (id, cart and product
untouched — the serializer exposes no other field), leaves every other row
in place and the row count equal, and the reserialized row total is
`q × unit_price`. -/
theorem update_cart_item_quantity_spec
    (products : List Product) (st : CartState) (q : Int) (it0 : CartItem)
    (huniq : st.items.Pairwise (fun a b => a.id ≠ b.id))
    (hmem : it0 ∈ st.items) :
    (q ≤ 0 → update_cart_item st it0.id q
        = (st, Except.error "Ensure this value is greater than or equal to 1."))
    ∧ (0 < q →
        (update_cart_item st it0.id q).2 = Except.ok ()
        ∧ ({ it0 with quantity := q } ∈ (update_cart_item st it0.id q).1.items)
        ∧ (∀ j ∈ st.items, j ≠ it0 → j ∈ (update_cart_item st it0.id q).1.items)
        ∧ (update_cart_item st it0.id q).1.items.length = st.items.length
        ∧ CartItemSerializer_get_total_price products { it0 with quantity := q }
            = q * unit_priceOf products it0.product_id) := by
  constructor
  · intro hq
    have : q < 1 := by omega
    simp [update_cart_item, this]
  · intro hq
    have hq1 : ¬ q < 1 := by omega
    simp only [update_cart_item, if_neg hq1]
    refine ⟨by trivial, ?_, ?_, List.length_map _ _, ?_⟩
    · simp only [List.mem_map]
      exact ⟨it0, hmem, by simp⟩
    · intro j hj hne
      have hid : j.id ≠ it0.id := huniq.forall symm_ne_id hj hmem hne
      simp only [List.mem_map]
      exact ⟨j, hj, by simp [hid]⟩
    · simp [CartItemSerializer_get_total_price]

/-- Witness for C8: on the single row `(id 0, cart 7, product 1,
quantity 2)`, updating to 0 is rejected with the store unchanged, updating
to 4 succeeds with the row rewritten to quantity 4, and the reserialized
row total is `4 × 5`. -/
theorem update_cart_item_quantity_spec_witness :
    update_cart_item ⟨[⟨0, 7, 1, 2⟩], 1⟩ 0 0
      = (⟨[⟨0, 7, 1, 2⟩], 1⟩,
         Except.error "Ensure this value is greater than or equal to 1.")
    ∧ (update_cart_item ⟨[⟨0, 7, 1, 2⟩], 1⟩ 0 4).2 = Except.ok ()
    ∧ ((⟨0, 7, 1, 4⟩ : CartItem) ∈ (update_cart_item ⟨[⟨0, 7, 1, 2⟩], 1⟩ 0 4).1.items)
    ∧ CartItemSerializer_get_total_price [⟨1, "a", "d", "s", 3, 5, 1⟩]
        ⟨0, 7, 1, 4⟩ = 4 * 5 :=
  have h0 := update_cart_item_quantity_spec [⟨1, "a", "d", "s", 3, 5, 1⟩]
    ⟨[⟨0, 7, 1, 2⟩], 1⟩ 0 ⟨0, 7, 1, 2⟩ (by simp) (by simp)
  have h4 := update_cart_item_quantity_spec [⟨1, "a", "d", "s", 3, 5, 1⟩]
    ⟨[⟨0, 7, 1, 2⟩], 1⟩ 4 ⟨0, 7, 1, 2⟩ (by simp) (by simp)
  ⟨h0.1 (by decide), (h4.2 (by decide)).1, (h4.2 (by decide)).2.1,
    by
      have := (h4.2 (by decide)).2.2.2.2
      simpa [unit_priceOf, productOf] using this⟩

end Store
